import Mathlib

/-!
Shallow embedding of the unified SQL tool (src/tools/sql_tool.js).

JS strings are modelled as lists of characters; JS string methods
(includes, toUpperCase, toLowerCase, trim, startsWith) are modelled by
the corresponding list functions below.  The three database drivers are
abstracted by the raw replies they can hand back to the tool; each
executor function is a direct transcription of the corresponding
executeXxxQuery method, including its try/catch structure.  A thrown JS
exception is modelled with Except.error (for functions that can throw)
or recorded in an explicit outcome field (for initialize()).
-/

namespace SqlTool

abbrev Str := List Char

/-- JS String.prototype.toUpperCase (ASCII relevant part). -/
def toUpperL (s : Str) : Str := s.map Char.toUpper

/-- JS String.prototype.toLowerCase (ASCII relevant part). -/
def toLowerL (s : Str) : Str := s.map Char.toLower

/-- Boolean prefix test on character lists (JS String.prototype.startsWith). -/
def isPrefixL : Str → Str → Bool
  | [], _ => true
  | _ :: _, [] => false
  | a :: p, b :: s => a == b && isPrefixL p s

/-- JS String.prototype.includes: substring occurrence test. -/
def containsSub (pat : Str) : Str → Bool
  | [] => isPrefixL pat []
  | b :: s => isPrefixL pat (b :: s) || containsSub pat s

/-- JS String.prototype.trim: strip whitespace from both ends. -/
def trimL (s : Str) : Str :=
  ((s.dropWhile Char.isWhitespace).reverse.dropWhile Char.isWhitespace).reverse

/-- A JS value passed in the request values array. -/
inductive JsValue where
  | str (s : Str)
  | num (n : Int)
  | boolean (b : Bool)
  | null
deriving DecidableEq, Repr

/-- A result row: the tool passes rows through untouched, so a row is
abstracted as a column-name/value association list with numeric values
(the claims only depend on row counts and row identity). -/
abbrev Row := List (Str × Int)

/-- The canonical result shape produced by the three executors.
Option models a JS field that may be absent/undefined. -/
structure QueryResult where
  rows : List Row
  affectedRows : Nat
  success : Bool
  error : Option Str
  lastInsertId : Option Int
deriving DecidableEq, Repr

/-- The common error result shape `{rows: [], affectedRows: 0, success: false, error}`. -/
def errResult (e : Str) : QueryResult := ⟨[], 0, false, some e, none⟩

/-- What bun's postgres driver can reply with: `sql.unsafe` resolves to an
array of rows or a single object, or rejects with an error message. -/
inductive PgRaw where
  | arr (rows : List Row)
  | single (r : Row)
deriving DecidableEq, Repr

/-- What mysql2 `connection.execute` can resolve to: a rows array (for
row-returning statements) or an ok-packet carrying affectedRows/insertId. -/
inductive MyRaw where
  | rowsArr (rows : List Row)
  | okPacket (affected : Nat) (insertId : Int)
deriving DecidableEq, Repr

/-- Errors `stmt.run` can throw in the sqlite executor: the readonly code
is handled specially, everything else is rethrown. -/
inductive SqliteRunError where
  | readonly
  | other (msg : Str)
deriving DecidableEq, Repr

/-- Abstraction of the bun:sqlite connection the sqlite executor talks to. -/
structure SqliteEnv where
  prepareError : Option Str
  allRows : Except Str (List Row)
  runError : Option SqliteRunError
  changes : Nat
  lastInsertRowId : Int
deriving Repr

/-- executePostgresQuery: wraps the raw driver reply, success path sets
affectedRows to the length of the returned row list. -/
def executePostgresQuery (raw : Except Str PgRaw) : QueryResult :=
  match raw with
  | .error e => errResult e
  | .ok (.arr rows) => ⟨rows, rows.length, true, none, none⟩
  | .ok (.single r) => ⟨[r], 1, true, none, none⟩

/-- executeMysqlQuery: rows is the reply when it is an array, else [];
affectedRows is the reply field `affectedRows || 0` (undefined on a rows
array); lastInsertId is the reply field insertId (undefined on a rows array). -/
def executeMysqlQuery (raw : Except Str MyRaw) : QueryResult :=
  match raw with
  | .error e => errResult e
  | .ok (.rowsArr rows) => ⟨rows, 0, true, none, none⟩
  | .ok (.okPacket affected insertId) => ⟨[], affected, true, none, some insertId⟩

/-- The keyword tested by the sqlite executor's row-returning classification. -/
def selectKw : Str := "select".data

/-- executeSqliteQuery transcribed: parameter guard, prepare, then the
select/run split with the readonly special case; every throw is caught by
the outer catch and turned into an error result. -/
def executeSqliteQuery (env : SqliteEnv) (query : Str) (values : Option (List JsValue)) :
    QueryResult :=
  if containsSub ['?'] query && values.isNone then
    errResult "Query parameters are required but not provided".data
  else
    match env.prepareError with
    | some e => errResult e
    | none =>
      if isPrefixL selectKw (toLowerL (trimL query)) then
        match env.allRows with
        | .ok rows => ⟨rows, rows.length, true, none, none⟩
        | .error e => errResult e
      else
        match env.runError with
        | none => ⟨[], env.changes, true, none, some env.lastInsertRowId⟩
        | some .readonly => ⟨[], 0, false, some "attempt to write a readonly database".data, none⟩
        | some (.other e) => errResult e

/-- The query-text denylist of isTrustedQuery. -/
def unsafeCommands : List Str :=
  ["DROP TABLE".data, "DROP DATABASE".data, "TRUNCATE TABLE".data]

/-- The parameter-value denylist of isTrustedQuery. -/
def unsafePatterns : List Str :=
  ["; DROP".data, "--".data, ";--".data, "/*".data, "*/".data]

/-- isTrustedQuery transcribed: the command list is matched against the
upper-cased query text; the pattern list is matched against every
string-typed element of values. -/
def isTrustedQuery (query : Str) (values : List JsValue) : Bool :=
  if unsafeCommands.any (fun cmd => containsSub cmd (toUpperL query)) then
    false
  else if values.any (fun v =>
      match v with
      | JsValue.str s => unsafePatterns.any (fun pat => containsSub pat s)
      | _ => false) then
    false
  else
    true

/-- The three backend type strings accepted by the constructor. -/
def tyPostgres : Str := "postgresql".data

/-- The mysql backend type string. -/
def tyMysql : Str := "mysql".data

/-- The sqlite backend type string. -/
def tySqlite : Str := "sqlite".data

/-- The abstracted driver world an executeQuery call runs against. -/
structure DriverEnv where
  pg : Except Str PgRaw
  my : Except Str MyRaw
  sq : SqliteEnv
deriving Repr

/-- executeQuery transcribed: dispatch on this.type with a throwing
default branch (Except.error models the thrown exception). -/
def executeQuery (ty : Str) (env : DriverEnv) (query : Str)
    (values : Option (List JsValue)) : Except Str QueryResult :=
  if ty = tyPostgres then .ok (executePostgresQuery env.pg)
  else if ty = tyMysql then .ok (executeMysqlQuery env.my)
  else if ty = tySqlite then .ok (executeSqliteQuery env.sq query values)
  else .error ("Unsupported database type: ".data ++ ty)

/-- Construction-time configuration relevant to the lifecycle: the
validated type string (this.type) and the optional initialization script. -/
structure ToolCfg where
  dbtype : Str
  initialization : Option Str
deriving Repr

/-- What can go wrong while initialize() runs: creating the backend
handle can throw, and executing the initialization script can fail. -/
structure InitEnv where
  createError : Option Str
  scriptError : Option Str
deriving Repr

/-- The error message template of initialize() and initializeSqlite(). -/
def initFailMsg (ty : Str) (m : Str) : Str :=
  "Failed to initialize ".data ++ ty ++ " database: ".data ++ m

/-- Observable outcome of initialize(): whether this.connection is set
afterwards, and the message of the thrown error if it threw. -/
structure InitOutcome where
  conn : Bool
  thrown : Option Str
deriving DecidableEq, Repr

/-- initializeSqlite transcribed: on a handle-creation error the outer
catch wraps the message once; on an init-script error the inner catch
closes the handle, nulls this.connection and rethrows, and the outer
catch wraps the message once. -/
def initializeSqlite (cfg : ToolCfg) (env : InitEnv) : InitOutcome :=
  match env.createError with
  | some e => ⟨false, some (initFailMsg tySqlite e)⟩
  | none =>
    match cfg.initialization with
    | none => ⟨true, none⟩
    | some _ =>
      match env.scriptError with
      | none => ⟨true, none⟩
      | some e => ⟨false, some (initFailMsg tySqlite e)⟩

/-- initialize() transcribed (named initializeDb here).  For postgresql
and mysql the handle is created and then, when an initialization script
is configured, executeQuery runs it and its returned QueryResult is
discarded, so a script failure (which executeQuery reports as a result
object, never a throw) leaves initialize() successful with the handle
retained.  For sqlite the initializeSqlite outcome is wrapped once more
by initialize()'s own catch.  For an unknown type the switch matches no
case and initialize() returns with this.connection still null. -/
def initializeDb (cfg : ToolCfg) (env : InitEnv) : InitOutcome :=
  if cfg.dbtype = tyPostgres ∨ cfg.dbtype = tyMysql then
    match env.createError with
    | some e => ⟨false, some (initFailMsg cfg.dbtype e)⟩
    | none => ⟨true, none⟩
  else if cfg.dbtype = tySqlite then
    match initializeSqlite cfg env with
    | ⟨c, none⟩ => ⟨c, none⟩
    | ⟨c, some e⟩ => ⟨c, some (initFailMsg cfg.dbtype e)⟩
  else ⟨false, none⟩

/-- The content of a response: a full QueryResult from executeQuery, or
the plain error object built inline for validation/screen/caught errors. -/
inductive Content where
  | result (r : QueryResult)
  | errObj (msg : Str)
deriving DecidableEq, Repr

/-- The success flag of a content object (the plain error objects all
carry success: false). -/
def Content.successFlag : Content → Bool
  | .result r => r.success
  | .errObj _ => false

/-- The error field of a content object, when present. -/
def Content.errorField : Content → Option Str
  | .result r => r.error
  | .errObj m => some m

/-- The envelope returned by use(). -/
structure Response where
  status : Nat
  content : Content
deriving DecidableEq, Repr

/-- The request object of use(): query and values fields, either may be
absent (undefined). -/
structure UseParams where
  query : Option Str
  values : Option (List JsValue)
deriving DecidableEq, Repr

/-- The environment a use() call runs against. -/
structure UseEnv where
  init : InitEnv
  driver : DriverEnv
deriving Repr

/-- Observable outcome of a use() call: the returned envelope (use()
never lets an exception escape: its try/catch converts every throw to a
400 response), whether initialize() was entered, whether executeQuery
was invoked for this request, and the connection state afterwards. -/
structure UseResult where
  resp : Response
  initCalled : Bool
  adapterCalled : Bool
  conn : Bool
deriving Repr

/-- The body of use() after the lazy-initialization step: destructure
the request (values defaults to []), validate query, run the trust
screen, then delegate to executeQuery; a throw from executeQuery is
caught by use()'s outer catch and becomes a 400 error response. -/
def useChecked (cfg : ToolCfg) (conn : Bool) (initCalled : Bool) (env : UseEnv)
    (p : UseParams) : UseResult :=
  match p.query with
  | none => ⟨⟨400, .errObj "Query is required".data⟩, initCalled, false, conn⟩
  | some q =>
    if q = [] then
      ⟨⟨400, .errObj "Query is required".data⟩, initCalled, false, conn⟩
    else if isTrustedQuery q (p.values.getD []) = false then
      ⟨⟨400, .errObj "Potential SQL injection detected".data⟩, initCalled, false, conn⟩
    else
      match executeQuery cfg.dbtype env.driver q (some (p.values.getD [])) with
      | .error e => ⟨⟨400, .errObj e⟩, initCalled, true, conn⟩
      | .ok r => ⟨⟨if r.success then 200 else 400, .result r⟩, initCalled, true, conn⟩

/-- use() transcribed: inside the try, initialize first when
this.connection is null (an initialization throw is caught by the outer
catch and returned as a 400 error response), then the validated body. -/
def use (cfg : ToolCfg) (conn : Bool) (env : UseEnv) (p : UseParams) : UseResult :=
  if conn = false then
    match (initializeDb cfg env.init).thrown with
    | some e => ⟨⟨400, .errObj e⟩, true, false, (initializeDb cfg env.init).conn⟩
    | none => useChecked cfg (initializeDb cfg env.init).conn true env p
  else useChecked cfg conn false env p

/-- cleanup() transcribed: early return when the connection is already
absent; otherwise the backend close call runs inside a try whose catch
only logs, and the finally block always nulls this.connection.  The
Except return type records that no exception can escape. -/
def cleanup (conn : Bool) (closeError : Option Str) : Except Str Bool :=
  if conn = false then .ok conn
  else
    match closeError with
    | some _ => .ok false
    | none => .ok false

/-- The valid backend type strings checked by the constructor. -/
def validTypes : List Str := [tyPostgres, tyMysql, tySqlite]

/-- The constructor's type expression: params.type?.toLowerCase() with a
falsy (undefined or empty-string) default of sqlite. -/
def normalizedType (t : Option Str) : Str :=
  match t with
  | none => tySqlite
  | some s => if toLowerL s = [] then tySqlite else toLowerL s

/-- The constructor's type handling: the normalized type string is
stored as this.type after membership validation, with a throw
(Except.error) on an unsupported type. -/
def constructorType (t : Option Str) : Except Str Str :=
  if normalizedType t ∈ validTypes then .ok (normalizedType t)
  else .error "Unsupported database type. Must be one of: postgresql, mysql, sqlite".data

/-! Helper lemmas about the string operations. -/

theorem isPrefixL_map (f : Char → Char) : ∀ (p s : Str), isPrefixL p s = true →
    isPrefixL (p.map f) (s.map f) = true
  | [], _, _ => rfl
  | _ :: _, [], h => by simp [isPrefixL] at h
  | a :: p, b :: s, h => by
    simp only [isPrefixL, Bool.and_eq_true, beq_iff_eq] at h
    simp only [List.map, isPrefixL, Bool.and_eq_true, beq_iff_eq]
    exact ⟨congrArg f h.1, isPrefixL_map f p s h.2⟩

theorem containsSub_map (f : Char → Char) (pat : Str) : ∀ (s : Str),
    containsSub pat s = true → containsSub (pat.map f) (s.map f) = true
  | [], h => by
    cases pat with
    | nil => rfl
    | cons a p => simp [containsSub, isPrefixL] at h
  | b :: s, h => by
    simp only [containsSub, Bool.or_eq_true] at h
    simp only [List.map, containsSub, Bool.or_eq_true]
    rcases h with h | h
    · exact Or.inl (isPrefixL_map f pat (b :: s) h)
    · exact Or.inr (containsSub_map f pat s h)

theorem containsSub_ne_nil (pat s : Str) (h : containsSub pat s = true) (hp : pat ≠ []) :
    s ≠ [] := by
  intro hs
  subst hs
  cases pat with
  | nil => exact hp rfl
  | cons a p => simp [containsSub, isPrefixL] at h

/-! Helper lemmas about the trust screen and the use() branches. -/

theorem isTrustedQuery_false_of_cmd (q : Str) (vals : List JsValue) (cmd : Str)
    (hc : cmd ∈ unsafeCommands) (h : containsSub cmd (toUpperL q) = true) :
    isTrustedQuery q vals = false := by
  unfold isTrustedQuery
  have hany : unsafeCommands.any (fun c => containsSub c (toUpperL q)) = true :=
    List.any_eq_true.mpr ⟨cmd, hc, h⟩
  simp [hany]

theorem useChecked_initCalled (cfg : ToolCfg) (conn ic : Bool) (env : UseEnv)
    (p : UseParams) : (useChecked cfg conn ic env p).initCalled = ic := by
  unfold useChecked
  rcases p.query with _ | q
  · rfl
  · dsimp only
    split
    · rfl
    · split
      · rfl
      · split <;> rfl

theorem use_of_conn (cfg : ToolCfg) (env : UseEnv) (p : UseParams) :
    use cfg true env p = useChecked cfg true false env p := by
  unfold use
  rw [if_neg (by simp)]

theorem use_of_init_ok (cfg : ToolCfg) (env : UseEnv) (p : UseParams)
    (h : (initializeDb cfg env.init).thrown = none) :
    use cfg false env p = useChecked cfg (initializeDb cfg env.init).conn true env p := by
  unfold use
  rw [if_pos rfl]
  rw [h]

theorem use_of_init_thrown (cfg : ToolCfg) (env : UseEnv) (p : UseParams) (e : Str)
    (h : (initializeDb cfg env.init).thrown = some e) :
    use cfg false env p =
      ⟨⟨400, Content.errObj e⟩, true, false, (initializeDb cfg env.init).conn⟩ := by
  unfold use
  rw [if_pos rfl]
  rw [h]

theorem useChecked_injection (cfg : ToolCfg) (conn ic : Bool) (env : UseEnv) (p : UseParams)
    (q frag : Str) (hq : p.query = some q) (hfrag : containsSub frag q = true)
    (hup : toUpperL frag = "DROP TABLE".data) :
    useChecked cfg conn ic env p =
      ⟨⟨400, Content.errObj "Potential SQL injection detected".data⟩, ic, false, conn⟩ := by
  have hfragne : frag ≠ [] := by
    intro hnil
    subst hnil
    simp [toUpperL] at hup
  have hqne : ¬(q = []) := containsSub_ne_nil frag q hfrag hfragne
  have hcmd : containsSub ("DROP TABLE".data) (toUpperL q) = true := by
    rw [← hup]
    exact containsSub_map Char.toUpper frag q hfrag
  have htrust : isTrustedQuery q (p.values.getD []) = false :=
    isTrustedQuery_false_of_cmd q _ ("DROP TABLE".data) (by simp [unsafeCommands]) hcmd
  unfold useChecked
  rw [hq]
  dsimp only
  rw [if_neg hqne, if_pos htrust]

/-- A driver world for concrete witnesses: all drivers reply successfully
with empty row sets. -/
def sampleDriver : DriverEnv :=
  ⟨Except.ok (PgRaw.arr []), Except.ok (MyRaw.rowsArr []), ⟨none, Except.ok [], none, 0, 0⟩⟩

/-- A use() environment for concrete witnesses: initialization succeeds. -/
def sampleEnv : UseEnv := ⟨⟨none, none⟩, sampleDriver⟩

/-- A use() environment whose handle creation fails with message boom. -/
def badInitEnv : UseEnv := ⟨⟨some ("boom".data), none⟩, sampleDriver⟩

/-- C1 counterexample: on an uninitialized sqlite tool whose handle
creation fails, a request whose query contains drop table is answered
with the wrapped initialization error, not the fixed injection message,
because use() runs the lazy initialization before the trust screen
(executeQuery is still never invoked for the request). -/
theorem drop_table_counterexample :
    (use ⟨tySqlite, none⟩ false badInitEnv
        ⟨some ("drop table users".data), none⟩).resp.content ≠
      Content.errObj ("Potential SQL injection detected".data) ∧
    (use ⟨tySqlite, none⟩ false badInitEnv
        ⟨some ("drop table users".data), none⟩).resp.content =
      Content.errObj (initFailMsg tySqlite (initFailMsg tySqlite ("boom".data))) ∧
    (use ⟨tySqlite, none⟩ false badInitEnv
        ⟨some ("drop table users".data), none⟩).adapterCalled = false := by
  refine ⟨by decide, by decide, by decide⟩

/-- C1 amended: for every request whose query text contains DROP TABLE
in any letter case, executeQuery is never invoked for that request, in
every tool state; and whenever the connection is already present or the
lazy initialization does not throw, use() answers with the fixed 400
injection error (an initialization failure preempts it with the wrapped
initialization error instead). -/
theorem use_rejects_drop_table (cfg : ToolCfg) (conn : Bool) (env : UseEnv) (p : UseParams)
    (q frag : Str) (hq : p.query = some q) (hfrag : containsSub frag q = true)
    (hup : toUpperL frag = "DROP TABLE".data) :
    (use cfg conn env p).adapterCalled = false ∧
    ((conn = true ∨ (initializeDb cfg env.init).thrown = none) →
      (use cfg conn env p).resp =
        ⟨400, Content.errObj "Potential SQL injection detected".data⟩) := by
  cases conn with
  | true =>
    rw [use_of_conn cfg env p, useChecked_injection cfg true false env p q frag hq hfrag hup]
    exact ⟨rfl, fun _ => rfl⟩
  | false =>
    cases hth : (initializeDb cfg env.init).thrown with
    | some e =>
      rw [use_of_init_thrown cfg env p e hth]
      refine ⟨rfl, ?_⟩
      intro hready
      rcases hready with h | h
      · exact absurd h (by simp)
      · exact Option.noConfusion h
    | none =>
      rw [use_of_init_ok cfg env p hth,
        useChecked_injection cfg _ true env p q frag hq hfrag hup]
      exact ⟨rfl, fun _ => rfl⟩

/-- C1 amended witness: a lower-case drop table request against an
initialized sqlite tool. -/
theorem use_rejects_drop_table_witness :
    (use ⟨tySqlite, none⟩ true sampleEnv
        ⟨some ("drop table users".data), none⟩).adapterCalled = false ∧
    ((true = true ∨ (initializeDb ⟨tySqlite, none⟩ sampleEnv.init).thrown = none) →
      (use ⟨tySqlite, none⟩ true sampleEnv ⟨some ("drop table users".data), none⟩).resp =
        ⟨400, Content.errObj "Potential SQL injection detected".data⟩) :=
  use_rejects_drop_table ⟨tySqlite, none⟩ true sampleEnv ⟨some ("drop table users".data), none⟩
    ("drop table users".data) ("drop table".data) rfl (by decide) (by decide)

/-- C2 counterexample: the query text select 1 -- contains the
comment fragment -- yet the trust screen accepts it with an empty
parameter list: the comment/terminator denylist is not applied to the
query text. -/
theorem trust_screen_text_counterexample :
    containsSub ("--".data) ("select 1 --".data) = true ∧
    ("--".data) ∈ unsafePatterns ∧
    isTrustedQuery ("select 1 --".data) [] = true := by
  refine ⟨by decide, by decide, by decide⟩

/-- C2 amended: the comment/terminator denylist is applied to every
string-typed parameter value (by exact fragment match), not to the query
text; any string parameter containing one of the fragments makes the
trust screen return false, regardless of the query text. -/
theorem trust_screen_patterns_on_values (q s pat : Str) (vals : List JsValue)
    (hmem : JsValue.str s ∈ vals) (hpat : pat ∈ unsafePatterns)
    (hsub : containsSub pat s = true) :
    isTrustedQuery q vals = false := by
  unfold isTrustedQuery
  have hany : vals.any (fun v =>
      match v with
      | JsValue.str s => unsafePatterns.any (fun pat => containsSub pat s)
      | _ => false) = true :=
    List.any_eq_true.mpr ⟨JsValue.str s, hmem, List.any_eq_true.mpr ⟨pat, hpat, hsub⟩⟩
  rw [hany]
  split <;> rfl

/-- C2 amended witness: a parameter value containing the comment
fragment is rejected. -/
theorem trust_screen_patterns_on_values_witness :
    isTrustedQuery ("select 1".data) [JsValue.str ("a -- b".data)] = false :=
  trust_screen_patterns_on_values ("select 1".data) ("a -- b".data) ("--".data)
    [JsValue.str ("a -- b".data)] (by decide) (by decide) (by decide)

/-! Result invariant: each executor only builds results in which
success = false exactly when the error field is set. -/

theorem executePostgresQuery_inv (raw : Except Str PgRaw) :
    ((executePostgresQuery raw).success = false ↔
      ((executePostgresQuery raw).error).isSome = true) := by
  cases raw with
  | error e => simp [executePostgresQuery, errResult]
  | ok v => cases v <;> simp [executePostgresQuery]

theorem executeMysqlQuery_inv (raw : Except Str MyRaw) :
    ((executeMysqlQuery raw).success = false ↔
      ((executeMysqlQuery raw).error).isSome = true) := by
  cases raw with
  | error e => simp [executeMysqlQuery, errResult]
  | ok v => cases v <;> simp [executeMysqlQuery]

theorem executeSqliteQuery_inv (env : SqliteEnv) (q : Str) (v : Option (List JsValue)) :
    ((executeSqliteQuery env q v).success = false ↔
      ((executeSqliteQuery env q v).error).isSome = true) := by
  unfold executeSqliteQuery
  split
  · simp [errResult]
  · split
    · simp [errResult]
    · split
      · split <;> simp [errResult]
      · split
        · simp
        · simp
        · simp [errResult]

theorem executeQuery_inv (ty : Str) (env : DriverEnv) (q : Str)
    (v : Option (List JsValue)) (r : QueryResult) (h : executeQuery ty env q v = .ok r) :
    (r.success = false ↔ (r.error).isSome = true) := by
  unfold executeQuery at h
  split at h
  · cases h; exact executePostgresQuery_inv env.pg
  · split at h
    · cases h; exact executeMysqlQuery_inv env.my
    · split at h
      · cases h; exact executeSqliteQuery_inv env.sq q v
      · cases h

/-- The envelope property of C3, as a predicate on responses. -/
def envelopeOk (resp : Response) : Prop :=
  (resp.status = 200 ↔ resp.content.successFlag = true) ∧
  (resp.content.successFlag = false ↔ (resp.content.errorField).isSome = true)

theorem envelopeOk_errObj (msg : Str) : envelopeOk ⟨400, Content.errObj msg⟩ := by
  constructor
  · simp [Content.successFlag]
  · simp [Content.successFlag, Content.errorField]

theorem useChecked_envelopeOk (cfg : ToolCfg) (conn ic : Bool) (env : UseEnv)
    (p : UseParams) : envelopeOk (useChecked cfg conn ic env p).resp := by
  unfold useChecked
  rcases p.query with _ | q
  · exact envelopeOk_errObj _
  · dsimp only
    split
    · exact envelopeOk_errObj _
    · split
      · exact envelopeOk_errObj _
      · split
        · exact envelopeOk_errObj _
        · rename_i r hr
          have hinv := executeQuery_inv cfg.dbtype env.driver q _ r hr
          constructor
          · cases hs : r.success <;>
              simp [Content.successFlag, hs]
          · cases hs : r.success <;>
              simp only [Content.successFlag, Content.errorField] <;>
              simpa [hs] using hinv

/-- C3: for every request and every outcome, the envelope returned by
use() has status 200 exactly when the content's success flag is true,
and the content's success flag is false exactly when an error field is
present. -/
theorem envelope_invariant (cfg : ToolCfg) (conn : Bool) (env : UseEnv) (p : UseParams) :
    ((use cfg conn env p).resp.status = 200 ↔
      (use cfg conn env p).resp.content.successFlag = true) ∧
    ((use cfg conn env p).resp.content.successFlag = false ↔
      ((use cfg conn env p).resp.content.errorField).isSome = true) := by
  have : envelopeOk (use cfg conn env p).resp := by
    unfold use
    split
    · split
      · exact envelopeOk_errObj _
      · exact useChecked_envelopeOk cfg _ true env p
    · exact useChecked_envelopeOk cfg conn false env p
  exact this

theorem useChecked_query_required (cfg : ToolCfg) (conn ic : Bool) (env : UseEnv)
    (p : UseParams) (hq : p.query = none ∨ p.query = some []) :
    useChecked cfg conn ic env p =
      ⟨⟨400, Content.errObj "Query is required".data⟩, ic, false, conn⟩ := by
  unfold useChecked
  rcases hq with h | h <;> rw [h]
  dsimp only
  rw [if_pos rfl]

/-- C4 counterexample: on an uninitialized sqlite tool whose handle
creation fails, a request with the query field missing is answered with
the initialization error, not with Query is required, and initialize()
was entered first: connection initialization precedes query validation. -/
theorem query_required_counterexample :
    (use ⟨tySqlite, none⟩ false badInitEnv ⟨none, none⟩).resp.content ≠
      Content.errObj ("Query is required".data) ∧
    (use ⟨tySqlite, none⟩ false badInitEnv ⟨none, none⟩).resp.content =
      Content.errObj (initFailMsg tySqlite (initFailMsg tySqlite ("boom".data))) ∧
    (use ⟨tySqlite, none⟩ false badInitEnv ⟨none, none⟩).initCalled = true := by
  refine ⟨by decide, by decide, by decide⟩

/-- C4 amended: use() initializes the connection before validating the
query; once the connection is present (or lazy initialization does not
throw), a request with a missing or empty query is answered 400 Query is
required and executeQuery is never invoked for it. -/
theorem query_required_after_init (cfg : ToolCfg) (conn : Bool) (env : UseEnv)
    (p : UseParams) (hq : p.query = none ∨ p.query = some [])
    (hready : conn = true ∨ (initializeDb cfg env.init).thrown = none) :
    (use cfg conn env p).resp = ⟨400, Content.errObj "Query is required".data⟩ ∧
    (use cfg conn env p).adapterCalled = false := by
  cases conn with
  | true =>
    rw [use_of_conn cfg env p, useChecked_query_required cfg true false env p hq]
    exact ⟨rfl, rfl⟩
  | false =>
    have hth : (initializeDb cfg env.init).thrown = none := by
      rcases hready with h | h
      · exact absurd h (by simp)
      · exact h
    rw [use_of_init_ok cfg env p hth, useChecked_query_required cfg _ true env p hq]
    exact ⟨rfl, rfl⟩

/-- C4 amended witness: an empty-query request against an initialized
tool. -/
theorem query_required_after_init_witness :
    (use ⟨tySqlite, none⟩ true sampleEnv ⟨some [], none⟩).resp =
      ⟨400, Content.errObj "Query is required".data⟩ ∧
    (use ⟨tySqlite, none⟩ true sampleEnv ⟨some [], none⟩).adapterCalled = false :=
  query_required_after_init ⟨tySqlite, none⟩ true sampleEnv ⟨some [], none⟩
    (Or.inr rfl) (Or.inl rfl)

/-- C5 counterexample: on an uninitialized sqlite tool whose handle
creation fails, use() does not let the initialization fault escape: it
returns an ordinary {status: 400, content: {error, success: false}}
envelope carrying the initialization message (the embedding of use() is
a total function because the outer catch converts every throw). -/
theorem init_failure_counterexample :
    (use ⟨tySqlite, none⟩ false badInitEnv ⟨some ("SELECT 1".data), none⟩).resp.status = 400 ∧
    (use ⟨tySqlite, none⟩ false badInitEnv ⟨some ("SELECT 1".data), none⟩).resp.content =
      Content.errObj (initFailMsg tySqlite (initFailMsg tySqlite ("boom".data))) ∧
    (use ⟨tySqlite, none⟩ false badInitEnv
        ⟨some ("SELECT 1".data), none⟩).resp.content.successFlag = false := by
  refine ⟨by decide, by decide, by decide⟩

/-- C5 amended: initialize() itself fails with a thrown error, but when
that happens during the lazy initialization inside use(), the outer
catch of use() converts it into a {status: 400, content: {error,
success: false}} response; no exception escapes use() and executeQuery
is never reached. -/
theorem init_failure_caught_as_400 (cfg : ToolCfg) (env : UseEnv) (p : UseParams)
    (e : Str) (hth : (initializeDb cfg env.init).thrown = some e) :
    (use cfg false env p).resp = ⟨400, Content.errObj e⟩ ∧
    (use cfg false env p).adapterCalled = false := by
  rw [use_of_init_thrown cfg env p e hth]
  exact ⟨rfl, rfl⟩

/-- C5 amended witness: the failing sqlite initialization produces the
doubly wrapped message as a 400 response. -/
theorem init_failure_caught_as_400_witness :
    (use ⟨tySqlite, none⟩ false badInitEnv ⟨some ("SELECT 1".data), none⟩).resp =
      ⟨400, Content.errObj (initFailMsg tySqlite (initFailMsg tySqlite ("boom".data)))⟩ ∧
    (use ⟨tySqlite, none⟩ false badInitEnv
        ⟨some ("SELECT 1".data), none⟩).adapterCalled = false :=
  init_failure_caught_as_400 ⟨tySqlite, none⟩ badInitEnv ⟨some ("SELECT 1".data), none⟩
    (initFailMsg tySqlite (initFailMsg tySqlite ("boom".data))) (by decide)

/-- C6: cleanup() never raises, for every prior connection state and
every behavior of the backend close call; it always leaves the
connection absent, a second call returns the same (absent) outcome, and
a subsequent use() on the absent connection re-enters initialize(). -/
theorem cleanup_total_idempotent_reinit (conn : Bool) (e1 e2 : Option Str)
    (cfg : ToolCfg) (env : UseEnv) (p : UseParams) :
    cleanup conn e1 = Except.ok false ∧
    cleanup false e2 = cleanup conn e1 ∧
    (use cfg false env p).initCalled = true := by
  have h1 : cleanup conn e1 = Except.ok false := by
    cases conn <;> cases e1 <;> rfl
  have h2 : cleanup false e2 = Except.ok false := by
    cases e2 <;> rfl
  refine ⟨h1, h2.trans h1.symm, ?_⟩
  unfold use
  rw [if_pos rfl]
  cases hth : (initializeDb cfg env.init).thrown with
  | none => exact useChecked_initCalled cfg _ true env p
  | some e => rfl

/-- A mysql driver world whose reply to the statement is a one-row array. -/
def mysqlSelDriver : DriverEnv :=
  ⟨Except.ok (PgRaw.arr []), Except.ok (MyRaw.rowsArr [[("x".data, (1 : Int))]]),
    ⟨none, Except.ok [], none, 0, 0⟩⟩

/-- C7 counterexample: on the mysql backend, a statement whose trimmed
case-folded text begins with select and which returns one row is
normalized with affectedRows = 0, not the returned row count: only the
sqlite executor derives affectedRows from the select classification. -/
theorem affected_rows_counterexample :
    isPrefixL selectKw (toLowerL (trimL ("select 1".data))) = true ∧
    executeQuery tyMysql mysqlSelDriver ("select 1".data) (some []) =
      Except.ok ⟨[[("x".data, (1 : Int))]], 0, true, none, none⟩ := by
  exact ⟨by decide, rfl⟩

/-- C7 amended: the sqlite executor alone applies the select
classification: selects report affectedRows = returned row count, other
statements report affectedRows = the connection's changes() count (so a
mutation touching zero rows succeeds with affectedRows 0).  The postgres
executor always reports affectedRows = returned row count, and the mysql
executor reports the driver's affectedRows field, which is absent
(hence 0) on a row-returning reply. -/
theorem affected_rows_amended (env : SqliteEnv) (q : Str) (v : List JsValue)
    (rowsP rowsM allRows : List Row) (aff : Nat) (iid : Int)
    (hprep : env.prepareError = none) (hrun : env.runError = none)
    (hall : env.allRows = Except.ok allRows) :
    ((isPrefixL selectKw (toLowerL (trimL q)) = true →
        executeSqliteQuery env q (some v) = ⟨allRows, allRows.length, true, none, none⟩) ∧
      (isPrefixL selectKw (toLowerL (trimL q)) = false →
        executeSqliteQuery env q (some v) =
          ⟨[], env.changes, true, none, some env.lastInsertRowId⟩)) ∧
    executePostgresQuery (Except.ok (PgRaw.arr rowsP)) =
      ⟨rowsP, rowsP.length, true, none, none⟩ ∧
    executeMysqlQuery (Except.ok (MyRaw.rowsArr rowsM)) = ⟨rowsM, 0, true, none, none⟩ ∧
    executeMysqlQuery (Except.ok (MyRaw.okPacket aff iid)) =
      ⟨[], aff, true, none, some iid⟩ := by
  refine ⟨⟨?_, ?_⟩, rfl, rfl, rfl⟩
  · intro hsel
    unfold executeSqliteQuery
    rw [if_neg (by simp), hprep, if_pos hsel, hall]
  · intro hsel
    unfold executeSqliteQuery
    rw [if_neg (by simp), hprep, if_neg (by simp [hsel]), hrun]

/-- C7 amended witness: a zero-row sqlite delete succeeds with
affectedRows 0, a sqlite select reports the row count, and the two
server executors report their respective counts. -/
theorem affected_rows_amended_witness :
    ((isPrefixL selectKw (toLowerL (trimL ("delete from t".data))) = true →
        executeSqliteQuery ⟨none, Except.ok [], none, 0, 7⟩ ("delete from t".data)
          (some []) = ⟨[], 0, true, none, none⟩) ∧
      (isPrefixL selectKw (toLowerL (trimL ("delete from t".data))) = false →
        executeSqliteQuery ⟨none, Except.ok [], none, 0, 7⟩ ("delete from t".data)
          (some []) = ⟨[], 0, true, none, some 7⟩)) ∧
    executePostgresQuery (Except.ok (PgRaw.arr [])) = ⟨[], 0, true, none, none⟩ ∧
    executeMysqlQuery (Except.ok (MyRaw.rowsArr [])) = ⟨[], 0, true, none, none⟩ ∧
    executeMysqlQuery (Except.ok (MyRaw.okPacket 0 3)) = ⟨[], 0, true, none, some 3⟩ :=
  affected_rows_amended ⟨none, Except.ok [], none, 0, 7⟩ ("delete from t".data) []
    [] [] [] 0 3 rfl rfl rfl

/-- C8 counterexample: for the postgresql backend configured with an
initialization script, a script failure is invisible to initialize():
the handle stays retained and no initialization error is thrown, because
executeQuery reports the failure as a result object that initialize()
discards. -/
theorem init_script_failure_counterexample :
    initializeDb ⟨tyPostgres, some ("CREATE TABLE t (x INT)".data)⟩
      ⟨none, some ("boom".data)⟩ = ⟨true, none⟩ := by
  decide

/-- C8 amended: only the sqlite backend gives the claimed behavior: a
failing initialization script makes initializeSqlite close and null the
handle and rethrow, so initialize() fails with a (doubly) wrapped thrown
initialization error and no retained handle.  For postgresql and mysql
the script failure is swallowed and the handle is retained. -/
theorem init_script_failure_amended (scr err : Str) :
    initializeDb ⟨tySqlite, some scr⟩ ⟨none, some err⟩ =
      ⟨false, some (initFailMsg tySqlite (initFailMsg tySqlite err))⟩ ∧
    initializeDb ⟨tyPostgres, some scr⟩ ⟨none, some err⟩ = ⟨true, none⟩ ∧
    initializeDb ⟨tyMysql, some scr⟩ ⟨none, some err⟩ = ⟨true, none⟩ := by
  exact ⟨rfl, rfl, rfl⟩

/-- C9 counterexample: a sqlite delete statement that touches zero rows
(so certainly produced no auto-generated identifier) still gets a
populated lastInsertId, carrying the connection-level last insert rowid
left by earlier statements. -/
theorem last_insert_id_counterexample :
    executeSqliteQuery ⟨none, Except.ok [], none, 0, 7⟩ ("delete from t".data)
      (some []) = ⟨[], 0, true, none, some 7⟩ := by
  decide

/-- C9 amended: the sqlite executor populates lastInsertId on every
successful non-select statement with the connection's current
lastInsertRowId (whether or not this statement generated an id); the
mysql executor populates it with the driver's insertId on every
ok-packet reply (0 when nothing was auto-generated) and leaves it absent
on a row-array reply; the postgres executor never populates it, and its
absence does not prevent success. -/
theorem last_insert_id_amended (env : SqliteEnv) (q : Str) (v : List JsValue)
    (rowsM : List Row) (aff : Nat) (iid : Int) (raw : PgRaw)
    (hprep : env.prepareError = none) (hrun : env.runError = none)
    (hnotsel : isPrefixL selectKw (toLowerL (trimL q)) = false) :
    (executeSqliteQuery env q (some v)).lastInsertId = some env.lastInsertRowId ∧
    (executeSqliteQuery env q (some v)).success = true ∧
    (executeMysqlQuery (Except.ok (MyRaw.okPacket aff iid))).lastInsertId = some iid ∧
    (executeMysqlQuery (Except.ok (MyRaw.rowsArr rowsM))).lastInsertId = none ∧
    (executePostgresQuery (Except.ok raw)).lastInsertId = none ∧
    (executePostgresQuery (Except.ok raw)).success = true := by
  have hsq : executeSqliteQuery env q (some v) =
      ⟨[], env.changes, true, none, some env.lastInsertRowId⟩ := by
    unfold executeSqliteQuery
    rw [if_neg (by simp), hprep, if_neg (by simp [hnotsel]), hrun]
  rw [hsq]
  refine ⟨rfl, rfl, rfl, rfl, ?_, ?_⟩ <;> cases raw <;> rfl

/-- C9 amended witness: the concrete zero-change delete against the
sample connection state. -/
theorem last_insert_id_amended_witness :
    (executeSqliteQuery ⟨none, Except.ok [], none, 0, 7⟩ ("delete from t".data)
        (some [])).lastInsertId = some 7 ∧
    (executeSqliteQuery ⟨none, Except.ok [], none, 0, 7⟩ ("delete from t".data)
        (some [])).success = true ∧
    (executeMysqlQuery (Except.ok (MyRaw.okPacket 0 0))).lastInsertId = some 0 ∧
    (executeMysqlQuery (Except.ok (MyRaw.rowsArr []))).lastInsertId = none ∧
    (executePostgresQuery (Except.ok (PgRaw.arr []))).lastInsertId = none ∧
    (executePostgresQuery (Except.ok (PgRaw.arr []))).success = true :=
  last_insert_id_amended ⟨none, Except.ok [], none, 0, 7⟩ ("delete from t".data) []
    [] 0 0 (PgRaw.arr []) rfl rfl (by decide)

/-- C10: every type string the constructor accepts is one of the three
backend strings, and for such a string the executeQuery dispatch always
reaches a backend executor: its throwing default branch is unreachable
for a successfully constructed instance. -/
theorem constructor_type_valid (t : Option Str) (ty : Str) (env : DriverEnv) (q : Str)
    (v : Option (List JsValue)) (h : constructorType t = Except.ok ty) :
    (ty = tyPostgres ∨ ty = tyMysql ∨ ty = tySqlite) ∧
    ∃ r, executeQuery ty env q v = Except.ok r := by
  have hmem : ty ∈ validTypes := by
    unfold constructorType at h
    split at h
    · rename_i hm
      cases h
      exact hm
    · cases h
  have hd : ty = tyPostgres ∨ ty = tyMysql ∨ ty = tySqlite := by
    simpa [validTypes] using hmem
  refine ⟨hd, ?_⟩
  rcases hd with h | h | h <;> subst h
  · exact ⟨executePostgresQuery env.pg, by unfold executeQuery; rw [if_pos rfl]⟩
  · exact ⟨executeMysqlQuery env.my, by
      unfold executeQuery
      rw [if_neg (by decide), if_pos rfl]⟩
  · exact ⟨executeSqliteQuery env.sq q v, by
      unfold executeQuery
      rw [if_neg (by decide), if_neg (by decide), if_pos rfl]⟩

/-- C10 witness: the mixed-case type string SQLite normalizes to sqlite,
is accepted, and dispatches to the sqlite executor. -/
theorem constructor_type_valid_witness :
    (tySqlite = tyPostgres ∨ tySqlite = tyMysql ∨ tySqlite = tySqlite) ∧
    ∃ r, executeQuery tySqlite sampleDriver ("select 1".data) (some []) = Except.ok r :=
  constructor_type_valid (some ("SQLite".data)) tySqlite sampleDriver ("select 1".data)
    (some []) rfl

end SqlTool
